import Mathlib

/-!
Verification development for the docker-downlocal tool
(src/docker-downlocal/docker-downlocal.py).

The program is a linear pipeline of external docker CLI invocations plus
string manipulation and file moves.  We shallowly embed the pure content of
each pipeline step: strings are Lean `String`s (lists of characters),
external command results (return code, stdout) are explicit parameters,
the filesystem is an existence predicate `String → Bool`, and the
`image_info` dictionary is the structure `ImageInfo`.
-/

/-- Model of Python ASCII whitespace, as stripped by `str.strip()`. -/
def isPySpace (c : Char) : Bool :=
  c = ' ' || c = '\t' || c = '\n' || c = '\r' || c = '\x0b' || c = '\x0c'

/-- Model of Python `str.strip()` on the character list: drop whitespace
from the front, then from the back. -/
def stripChars (l : List Char) : List Char :=
  ((l.dropWhile isPySpace).reverse.dropWhile isPySpace).reverse

/-- Model of Python `s.split(sep)` for a one-character separator: splits at
every occurrence, `"".split` gives `[""]`. -/
def splitOnChar (sep : Char) : List Char → List (List Char)
  | [] => [[]]
  | c :: rest =>
    if c = sep then [] :: splitOnChar sep rest
    else
      match splitOnChar sep rest with
      | [] => [[c]]
      | h :: t => (c :: h) :: t

/-- Model of Python `s.split(sep, 1)` when `sep` occurs in `s`: the part
before the first separator and the part after it.  When `sep` does not
occur, the first component is the whole list (the program only uses this
after testing membership). -/
def splitFirst (sep : Char) : List Char → List Char × List Char
  | [] => ([], [])
  | c :: rest =>
    if c = sep then ([], rest)
    else
      let p := splitFirst sep rest
      (c :: p.1, p.2)

/-- The character class of the sanitizing regex in `parse_image_input`:
letters, digits, underscore, dot, slash, hyphen. -/
def allowedNameChar (c : Char) : Bool :=
  ('a' ≤ c && c ≤ 'z') || ('A' ≤ c && c ≤ 'Z') || ('0' ≤ c && c ≤ '9') ||
    c = '_' || c = '.' || c = '/' || c = '-'

/-- One character of the name sanitization: keep an allowed character,
replace any other by an underscore. -/
def sanChar (c : Char) : Char :=
  if allowedNameChar c then c else '_'

/-- One character of `re.sub(r'[:/]', '_', name)` in `generate_filenames`. -/
def fileSafeChar (c : Char) : Char :=
  if c = ':' || c = '/' then '_' else c

/-- The per-run `image_info` record of `DockerImageManager.__init__`. -/
structure ImageInfo where
  original_name : String
  original_tag : String
  arch : String
  mirror : Option String
  tar_name : String
  zip_name : String
  pulled_ref : String
deriving DecidableEq, Repr

/-- The initial value of `image_info` set in `__init__`. -/
def init_image_info : ImageInfo :=
  { original_name := ""
    original_tag := "latest"
    arch := "amd64"
    mirror := none
    tar_name := ""
    zip_name := ""
    pulled_ref := "" }

/-- Model of `DockerImageManager.parse_image_input`: split the input on the
first colon when one is present (`image_input.split(':', 1)`), then replace
every character of the name outside the allowed class (letters, digits,
underscore, dot, slash, hyphen) by an underscore.
The tag is not sanitized. -/
def parse_image_input (info : ImageInfo) (image_input : String) : ImageInfo :=
  let step1 :=
    if ':' ∈ image_input.data then
      { info with
          original_name := ⟨(splitFirst ':' image_input.data).1⟩
          original_tag := ⟨(splitFirst ':' image_input.data).2⟩ }
    else
      { info with original_name := image_input }
  { step1 with original_name := ⟨step1.original_name.data.map sanChar⟩ }

/-- The `arch_map` of `select_architecture`: menu choice to platform
string; an invalid choice is re-prompted (modelled as `none`). -/
def arch_map (choice : String) : Option String :=
  if choice = "1" then some "amd64"
  else if choice = "2" then some "arm64"
  else if choice = "3" then some "arm/v7"
  else none

/-- Model of `DockerImageManager.get_pull_reference`: with a mirror, an
official image (no slash in the name) becomes `mirror/library/name`, a
namespaced image becomes `mirror/name`; without a mirror the name is
returned unchanged. -/
def get_pull_reference (info : ImageInfo) : String :=
  match info.mirror with
  | some m =>
    if '/' ∈ info.original_name.data then m ++ "/" ++ info.original_name
    else m ++ "/library/" ++ info.original_name
  | none => info.original_name

/-- Model of `result.stdout.strip().split(':')[1]` in `check_image_update`:
the second field of the colon-split local image id, `none` when indexing
would raise (fewer than two fields). -/
def extractLocalDigest (s : String) : Option String :=
  match (splitOnChar ':' (stripChars s.data)).get? 1 with
  | some l => some ⟨l⟩
  | none => none

/-- Word characters of the regex `\w` (ASCII). -/
def isWordChar (c : Char) : Bool :=
  ('a' ≤ c && c ≤ 'z') || ('A' ≤ c && c ≤ 'Z') || ('0' ≤ c && c ≤ '9') || c = '_'

/-- Consume an exact literal prefix, returning the rest of the input. -/
def consumeLit : List Char → List Char → Option (List Char)
  | [], l => some l
  | _ :: _, [] => none
  | c :: cs, x :: xs => if x = c then consumeLit cs xs else none

/-- Attempt the regex `"digest":\s*"(\w+:\w+)"` anchored at the head of the
input, returning group 1.  The character classes are disjoint from the
literals that follow them, so greedy matching without backtracking is the
exact regex semantics. -/
def digestMatchAt (l : List Char) : Option String :=
  match consumeLit ['"', 'd', 'i', 'g', 'e', 's', 't', '"', ':'] l with
  | none => none
  | some l1 =>
    match l1.dropWhile isPySpace with
    | '"' :: l3 =>
      let w1 := l3.takeWhile isWordChar
      if w1.isEmpty then none
      else
        match l3.dropWhile isWordChar with
        | ':' :: l4 =>
          let w2 := l4.takeWhile isWordChar
          if w2.isEmpty then none
          else
            match l4.dropWhile isWordChar with
            | '"' :: _ => some ⟨w1 ++ ':' :: w2⟩
            | _ => none
        | _ => none
    | _ => none

/-- Model of `re.search(r'"digest":\s*"(\w+:\w+)"', text).group(1)`:
the leftmost match, `none` when `search` returns `None` (in the program
that raises `AttributeError`, caught by the surrounding handler). -/
def searchDigest : List Char → Option String
  | [] => none
  | c :: rest =>
    match digestMatchAt (c :: rest) with
    | some g => some g
    | none => searchDigest rest

/-- Model of `DockerImageManager.check_image_update`.  Inputs are the
return code and stdout of `docker inspect` on the local reference and of
`docker manifest inspect` on the remote reference.  A non-zero return code
or a parsing failure (modelled by a failed extraction, an exception in the
program) yields `true` (assume an update is needed); otherwise the result
is the inequality of the two extracted digest strings. -/
def check_image_update (local_rc : Int) (local_out : String)
    (manifest_rc : Int) (manifest_out : String) : Bool :=
  if local_rc ≠ 0 then true
  else if manifest_rc ≠ 0 then true
  else
    match extractLocalDigest local_out, searchDigest manifest_out.data with
    | some dl, some dr => if dl = dr then false else true
    | _, _ => true

/-- Outcome of `DockerImageManager.pull_image`. -/
inductive PullResult where
  | skipped
  | pulled (new_ref : String)
  | failed (msg : String)
deriving DecidableEq, Repr

/-- Model of `DockerImageManager.pull_image`: when `check_image_update`
returned false the pull is skipped; otherwise `docker pull` runs and a
non-zero exit raises `RuntimeError`, else `pulled_ref` is recorded. -/
def pull_image (info : ImageInfo) (needs_update : Bool) (pull_rc : Int) :
    PullResult :=
  if needs_update = false then .skipped
  else if pull_rc ≠ 0 then .failed "镜像拉取失败"
  else .pulled (get_pull_reference info ++ ":" ++ info.original_tag)

/-- Model of `DockerImageManager.generate_filenames`: replace `:` and `/`
in the original name by `_`, then build
`<safe_name>_<tag>_<arch>_<timestamp>.tar` and `.zip`.  The timestamp
(`datetime.now().strftime`) is a parameter. -/
def generate_filenames (info : ImageInfo) (timestamp : String) : ImageInfo :=
  let safe_name : String := ⟨info.original_name.data.map fileSafeChar⟩
  let base_name :=
    safe_name ++ "_" ++ info.original_tag ++ "_" ++ info.arch ++ "_" ++ timestamp
  { info with
      tar_name := base_name ++ ".tar"
      zip_name := base_name ++ ".zip" }

/-- Removing one path from a filesystem modelled as an existence
predicate. -/
def removeFile (fs : String → Bool) (p : String) : String → Bool :=
  fun q => if q = p then false else fs q

/-- Model of `DockerImageManager.clean_temp_files`: remove the tar file if
it exists, then the zip file if it exists (`os.path.exists` guard before
each `os.remove`).  Returns the new filesystem and the list of paths
actually removed. -/
def clean_temp_files (info : ImageInfo) (fs : String → Bool) :
    (String → Bool) × List String :=
  let fs1 := if fs info.tar_name then removeFile fs info.tar_name else fs
  let r1 : List String := if fs info.tar_name then [info.tar_name] else []
  let fs2 := if fs1 info.zip_name then removeFile fs1 info.zip_name else fs1
  let r2 : List String := if fs1 info.zip_name then [info.zip_name] else []
  (fs2, r1 ++ r2)

/-- Model of `DockerImageManager.check_container_usage`:
`bool(result.stdout.strip())` on the output of
`docker ps -a -q --filter ancestor=<ref>`. -/
def check_container_usage (ps_stdout : String) : Bool :=
  !(stripChars ps_stdout.data).isEmpty

/-- What `DockerImageManager.clean_image` did during a run. -/
structure CleanImageTrace where
  removed_immediately : Bool
  rmi_invoked : Bool
  schedule_cleanup_invoked : Bool
deriving DecidableEq, Repr

/-- Model of `DockerImageManager.clean_image`: when a container references
the image the method prints and returns, deleting nothing and scheduling
nothing; otherwise `docker rmi` runs, and only if it fails
(`CalledProcessError`) is `schedule_cleanup` invoked. -/
def clean_image (ps_stdout : String) (rmi_rc : Int) : CleanImageTrace :=
  if check_container_usage ps_stdout then
    { removed_immediately := false, rmi_invoked := false
      schedule_cleanup_invoked := false }
  else if rmi_rc = 0 then
    { removed_immediately := true, rmi_invoked := true
      schedule_cleanup_invoked := false }
  else
    { removed_immediately := false, rmi_invoked := true
      schedule_cleanup_invoked := true }

/-- The two kinds of exception the `try` block of `run` distinguishes. -/
inductive RunExc where
  | keyboard_interrupt
  | error (msg : String)
deriving DecidableEq, Repr

/-- Model of the exception handlers of `DockerImageManager.run`: both call
`clean_temp_files` and then `sys.exit`, with status 130 for
`KeyboardInterrupt` and status 1 for any other `Exception`. -/
def run_exception_handler (info : ImageInfo) (fs : String → Bool) :
    RunExc → ((String → Bool) × List String) × Nat
  | .keyboard_interrupt => (clean_temp_files info fs, 130)
  | .error _ => (clean_temp_files info fs, 1)

/-- The configuration file as `configparser` reads it: the two keys of the
`DEFAULT` section, absent when the file does not set them. -/
structure ConfigData where
  remote_path : Option String
  registry_mirrors : Option String
deriving DecidableEq, Repr

/-- The placeholder configuration written by `create_config_template`. -/
def config_template : ConfigData :=
  { remote_path := some "/tmp/docker-images"
    registry_mirrors :=
      some "https://registry.docker-cn.com,https://mirror.baidubce.com" }

/-- Model of the list comprehension in `handle_config`:
`[m.strip() for m in raw.split(',') if m.strip()]`. -/
def parse_mirrors (s : String) : List String :=
  (splitOnChar ',' s.data).filterMap fun m =>
    let t := stripChars m
    if t.isEmpty then none else some ⟨t⟩

/-- Outcome of `DockerImageManager.handle_config`. -/
inductive ConfigResult where
  | exit_created (written : ConfigData)
  | loaded (remote_path : String) (mirrors : List String)
deriving DecidableEq, Repr

/-- Model of `DockerImageManager.handle_config`: with no configuration file
the template is written and the process exits (`sys.exit(0)`); otherwise
the staging path is read with its default and the mirror list is parsed. -/
def handle_config : Option ConfigData → ConfigResult
  | none => .exit_created config_template
  | some c =>
    .loaded (c.remote_path.getD "/tmp/docker-images")
      (parse_mirrors (c.registry_mirrors.getD ""))

/-- The start of `run`: `handle_config` runs first; when it exits
(`SystemExit` is not caught by the `except Exception` clause) no further
pipeline step executes, modelled by `none`. -/
def run_after_config (cfg : Option ConfigData) :
    Option (String × List String) :=
  match handle_config cfg with
  | .exit_created _ => none
  | .loaded rp ms => some (rp, ms)

example : parse_image_input init_image_info "ng@inx:1.0" =
    { init_image_info with original_name := "ng_inx", original_tag := "1.0" } := by
  decide

example : parse_image_input init_image_info "redis" =
    { init_image_info with original_name := "redis" } := by decide

example : extractLocalDigest "sha256:abc\n" = some "abc" := by decide

example : searchDigest ("x \"digest\": \"sha256:abc\" y".data) =
    some "sha256:abc" := by decide

example : parse_mirrors " a, ,b," = ["a", "b"] := by decide

/-! Helper lemmas. -/

lemma splitFirst_decomp (sep : Char) (l : List Char) (h : sep ∈ l) :
    l = (splitFirst sep l).1 ++ sep :: (splitFirst sep l).2 ∧
    sep ∉ (splitFirst sep l).1 := by
  induction l with
  | nil => cases h
  | cons c rest ih =>
    by_cases hc : c = sep
    · subst hc
      simp [splitFirst]
    · have hm : sep ∈ rest := by
        rcases List.mem_cons.mp h with h1 | h1
        · exact absurd h1.symm hc
        · exact h1
      obtain ⟨e1, e2⟩ := ih hm
      refine ⟨?_, ?_⟩
      · simp only [splitFirst, if_neg hc]
        exact congrArg (c :: ·) e1
      · simp only [splitFirst, if_neg hc, List.mem_cons]
        rintro (h1 | h1)
        · exact hc h1.symm
        · exact e2 h1

lemma clean_temp_files_state (info : ImageInfo) (fs : String → Bool) (p : String) :
    (clean_temp_files info fs).1 p =
      if p = info.tar_name ∨ p = info.zip_name then false else fs p := by
  by_cases h1 : fs info.tar_name <;>
    by_cases hzt : info.zip_name = info.tar_name <;>
      by_cases h2 : fs info.zip_name <;>
        by_cases hpt : p = info.tar_name <;>
          by_cases hpz : p = info.zip_name <;>
            simp_all [clean_temp_files, removeFile]

lemma clean_temp_files_removed (info : ImageInfo) (fs : String → Bool)
    (hne : info.tar_name ≠ info.zip_name) :
    (clean_temp_files info fs).2 =
      (if fs info.tar_name then [info.tar_name] else []) ++
        (if fs info.zip_name then [info.zip_name] else []) := by
  by_cases h1 : fs info.tar_name <;>
    by_cases h2 : fs info.zip_name <;>
      simp_all [clean_temp_files, removeFile, Ne.symm hne]

lemma generate_filenames_names_ne (info : ImageInfo) (timestamp : String) :
    (generate_filenames info timestamp).tar_name ≠
      (generate_filenames info timestamp).zip_name := by
  intro h
  have h2 := congrArg String.data h
  simp only [generate_filenames, String.data_append] at h2
  exact absurd (List.append_cancel_left h2) (by decide)

lemma string_mk_eq_empty_iff (t : List Char) : (⟨t⟩ : String) = "" ↔ t = [] := by
  constructor
  · intro h
    exact congrArg String.data h
  · intro h
    rw [h]

lemma parse_mirrors_eq (s : String) :
    parse_mirrors s =
      ((splitOnChar ',' s.data).map (fun e => (⟨stripChars e⟩ : String))).filter
        (fun m => m ≠ "") := by
  unfold parse_mirrors
  induction splitOnChar ',' s.data with
  | nil => rfl
  | cons a t ih =>
    simp only [List.filterMap_cons, List.map_cons, List.filter_cons]
    by_cases h : (stripChars a).isEmpty
    · have ha : (⟨stripChars a⟩ : String) = "" :=
        (string_mk_eq_empty_iff (stripChars a)).mpr (List.isEmpty_iff.mp h)
      simp [h, ha]
      simpa using ih
    · have ha : ¬ (⟨stripChars a⟩ : String) = "" := by
        intro hx
        exact h (List.isEmpty_iff.mpr ((string_mk_eq_empty_iff (stripChars a)).mp hx))
      simp [h, ha]
      simpa using ih

/-! Claim theorems. -/

/-- Claim C1, corrected.  When a container references the image
(`check_container_usage` is true) `clean_image` neither removes the image
nor attempts `docker rmi` nor invokes `schedule_cleanup`: it keeps the
image and returns.  `schedule_cleanup` is invoked exactly when no container
uses the image and the immediate `docker rmi` fails. -/
theorem clean_image_spec (ps_stdout : String) (rmi_rc : Int) :
    (check_container_usage ps_stdout = true →
      (clean_image ps_stdout rmi_rc).removed_immediately = false ∧
      (clean_image ps_stdout rmi_rc).rmi_invoked = false ∧
      (clean_image ps_stdout rmi_rc).schedule_cleanup_invoked = false) ∧
    ((clean_image ps_stdout rmi_rc).schedule_cleanup_invoked = true ↔
      check_container_usage ps_stdout = false ∧ rmi_rc ≠ 0) := by
  by_cases h : check_container_usage ps_stdout <;>
    by_cases h2 : rmi_rc = 0 <;>
      simp [clean_image, h, h2]

/-- Claim C1, the claim as stated is false: with a container id on the
`docker ps` output (`check_container_usage` true) and a `docker rmi` that
would succeed, `clean_image` does not invoke `schedule_cleanup`. -/
theorem clean_image_counterexample :
    ¬ (check_container_usage "abc123" = true →
        (clean_image "abc123" 0).schedule_cleanup_invoked = true) := by
  decide

/-- Witness for `clean_image_spec` at a concrete input: a run whose
`docker ps` output lists the container id `abc123`. -/
theorem clean_image_spec_witness :
    (clean_image "abc123" 0).removed_immediately = false ∧
    (clean_image "abc123" 0).rmi_invoked = false ∧
    (clean_image "abc123" 0).schedule_cleanup_invoked = false :=
  (clean_image_spec "abc123" 0).1 (by decide)

/-- Claim C4.  With a mirror selected, an official image (no slash in the
name) is pulled as `mirror/library/name`, a namespaced image as
`mirror/name`; with no mirror the reference is the name unchanged. -/
theorem get_pull_reference_spec (info : ImageInfo) (m : String) :
    (info.mirror = some m → '/' ∉ info.original_name.data →
      get_pull_reference info = m ++ "/library/" ++ info.original_name) ∧
    (info.mirror = some m → '/' ∈ info.original_name.data →
      get_pull_reference info = m ++ "/" ++ info.original_name) ∧
    (info.mirror = none → get_pull_reference info = info.original_name) := by
  unfold get_pull_reference
  refine ⟨fun h1 h2 => ?_, fun h1 h2 => ?_, fun h1 => ?_⟩
  · rw [h1]
    simp [h2]
  · rw [h1]
    simp [h2]
  · rw [h1]

/-- Witness for `get_pull_reference_spec`: the official image `nginx`
through the mirror `m.io`. -/
theorem get_pull_reference_spec_witness :
    get_pull_reference
        { init_image_info with original_name := "nginx", mirror := some "m.io" } =
      "m.io" ++ "/library/" ++ "nginx" :=
  (get_pull_reference_spec
      { init_image_info with original_name := "nginx", mirror := some "m.io" }
      "m.io").1 rfl (by decide)

/-- Claim C7.  When the local inspect exits non-zero, or the remote
manifest inspect exits non-zero, or parsing either output fails (an
exception in the program, a failed extraction here), `check_image_update`
returns true: the version check degrades to assuming an update is needed,
and being a total function it propagates no failure. -/
theorem check_image_update_failure (local_rc : Int) (local_out : String)
    (manifest_rc : Int) (manifest_out : String)
    (h : local_rc ≠ 0 ∨ manifest_rc ≠ 0 ∨
        extractLocalDigest local_out = none ∨
        searchDigest manifest_out.data = none) :
    check_image_update local_rc local_out manifest_rc manifest_out = true := by
  unfold check_image_update
  rcases h with h | h | h | h
  · simp [h]
  · by_cases h0 : local_rc = 0 <;> simp [h0, h]
  · by_cases h0 : local_rc = 0 <;> by_cases h1 : manifest_rc = 0 <;>
      simp [h0, h1, h]
  · by_cases h0 : local_rc = 0 <;> by_cases h1 : manifest_rc = 0 <;>
      cases hx : extractLocalDigest local_out <;>
        simp [h0, h1, h, hx]

/-- Witness for `check_image_update_failure`: a local inspect that exited
with status 1. -/
theorem check_image_update_failure_witness :
    check_image_update 1 "" 0 "" = true :=
  check_image_update_failure 1 "" 0 "" (Or.inl (by decide))

/-- Claim C8.  Each exception handler of `run` performs temp-file cleanup
via `clean_temp_files` and exits non-zero: status 130 for a keyboard
interrupt and status 1 for any other exception. -/
theorem run_exception_handler_spec (info : ImageInfo) (fs : String → Bool)
    (exc : RunExc) :
    (run_exception_handler info fs exc).1 = clean_temp_files info fs ∧
    (run_exception_handler info fs exc).2 ≠ 0 ∧
    (exc = .keyboard_interrupt → (run_exception_handler info fs exc).2 = 130) ∧
    (∀ msg, exc = .error msg → (run_exception_handler info fs exc).2 = 1) := by
  cases exc <;> simp [run_exception_handler]

/-- Witness for `run_exception_handler_spec`: a keyboard interrupt exits
with status 130. -/
theorem run_exception_handler_spec_witness :
    (run_exception_handler init_image_info (fun _ => false)
        .keyboard_interrupt).2 = 130 :=
  (run_exception_handler_spec init_image_info (fun _ => false)
      .keyboard_interrupt).2.2.1 rfl

/-- Claim C2.  When both the local inspect and the remote manifest inspect
exit with status 0 and both digest extractions succeed,
`check_image_update` returns false exactly when the digest extracted from
the local image id equals the digest extracted from the remote manifest,
and `pull_image` skips the pull exactly in that case. -/
theorem check_image_update_digest_iff (local_out manifest_out dl dr : String)
    (h1 : extractLocalDigest local_out = some dl)
    (h2 : searchDigest manifest_out.data = some dr) :
    (check_image_update 0 local_out 0 manifest_out = false ↔ dl = dr) ∧
    (∀ info pull_rc,
      pull_image info (check_image_update 0 local_out 0 manifest_out) pull_rc =
          .skipped ↔ dl = dr) := by
  have hc : check_image_update 0 local_out 0 manifest_out =
      (if dl = dr then false else true) := by
    simp [check_image_update, h1, h2]
  constructor
  · rw [hc]
    by_cases h : dl = dr <;> simp [h]
  · intro info pull_rc
    rw [hc]
    by_cases h : dl = dr <;> by_cases hrc : pull_rc = 0 <;>
      simp [h, hrc, pull_image]

/-- Witness for `check_image_update_digest_iff`: concrete inspect and
manifest outputs on which both extractions succeed.  The local extraction
drops the algorithm prefix while the remote extraction keeps it, so on
these outputs the two digests differ and the pull is not skipped. -/
theorem check_image_update_digest_iff_witness :
    extractLocalDigest "sha256:aaa" = some "aaa" ∧
    searchDigest ("\"digest\": \"sha256:aaa\"".data) = some "sha256:aaa" ∧
    (check_image_update 0 "sha256:aaa" 0 "\"digest\": \"sha256:aaa\"" = false ↔
      ("aaa" : String) = "sha256:aaa") :=
  ⟨by decide, by decide,
    (check_image_update_digest_iff "sha256:aaa" "\"digest\": \"sha256:aaa\""
        "aaa" "sha256:aaa" (by decide) (by decide)).1⟩

/-- Claim C3.  `parse_image_input` splits on the first colon: with a colon
present the name is the part before it and the tag the part after it,
otherwise the name is the whole input and the tag keeps its default value
`latest`; in both cases every character of the name outside the allowed
class is replaced by an underscore (and allowed characters are kept). -/
theorem parse_image_input_spec (input : String) :
    (':' ∈ input.data →
      input.data =
        (splitFirst ':' input.data).1 ++
          ':' :: (parse_image_input init_image_info input).original_tag.data ∧
      ':' ∉ (splitFirst ':' input.data).1 ∧
      (parse_image_input init_image_info input).original_name.data =
        ((splitFirst ':' input.data).1).map
          (fun c => if allowedNameChar c then c else '_')) ∧
    (':' ∉ input.data →
      (parse_image_input init_image_info input).original_name.data =
        input.data.map (fun c => if allowedNameChar c then c else '_') ∧
      (parse_image_input init_image_info input).original_tag = "latest") := by
  constructor
  · intro h
    obtain ⟨e1, e2⟩ := splitFirst_decomp ':' input.data h
    have ht : (parse_image_input init_image_info input).original_tag.data =
        (splitFirst ':' input.data).2 := by
      simp [parse_image_input, h]
    refine ⟨?_, e2, ?_⟩
    · rw [ht]
      exact e1
    · simp [parse_image_input, h, sanChar]
  · intro h
    constructor
    · simp [parse_image_input, h, sanChar]
    · simp [parse_image_input, h, init_image_info]

/-- Witness for `parse_image_input_spec`: the input `ng@inx:1.0` splits at
its first colon and the name is sanitized to `ng_inx`. -/
theorem parse_image_input_spec_witness :
    ("ng@inx:1.0" : String).data =
      (splitFirst ':' ("ng@inx:1.0" : String).data).1 ++
        ':' :: (parse_image_input init_image_info "ng@inx:1.0").original_tag.data ∧
    (parse_image_input init_image_info "ng@inx:1.0").original_name = "ng_inx" :=
  ⟨((parse_image_input_spec "ng@inx:1.0").1 (by decide)).1, by decide⟩

/-- Claim C5, corrected.  `generate_filenames` produces
`<safe_name>_<tag>_<arch>_<timestamp>.tar` and `.zip` where the colon and
slash characters of the name are replaced by underscores, and the two
names share one timestamp-qualified base, differing only in the extension;
the sanitized name part contains no colon and no slash, but the full file
names can still contain a path separator, contributed by the architecture
(choice 3 selects `arm/v7`) or by an unsanitized tag. -/
theorem generate_filenames_spec (info : ImageInfo) (timestamp : String) :
    (generate_filenames info timestamp).tar_name =
      (⟨info.original_name.data.map fileSafeChar⟩ : String) ++ "_" ++
        info.original_tag ++ "_" ++ info.arch ++ "_" ++ timestamp ++ ".tar" ∧
    (generate_filenames info timestamp).zip_name =
      (⟨info.original_name.data.map fileSafeChar⟩ : String) ++ "_" ++
        info.original_tag ++ "_" ++ info.arch ++ "_" ++ timestamp ++ ".zip" ∧
    (∃ base, (generate_filenames info timestamp).tar_name = base ++ ".tar" ∧
      (generate_filenames info timestamp).zip_name = base ++ ".zip") ∧
    (∀ c ∈ info.original_name.data.map fileSafeChar, c ≠ ':' ∧ c ≠ '/') := by
  refine ⟨rfl, rfl, ⟨_, rfl, rfl⟩, ?_⟩
  intro c hc
  obtain ⟨a, _, rfl⟩ := List.mem_map.mp hc
  unfold fileSafeChar
  by_cases h : (a = ':' || a = '/') = true
  · simp [h]
  · simp only [h, if_neg]
    simpa using h

/-- Claim C5, the claim as stated is false: the architecture choice 3 is
the selectable platform `arm/v7`, and for it the generated tar file name
contains the path separator `/`. -/
theorem generate_filenames_counterexample :
    arch_map "3" = some "arm/v7" ∧
    ¬ ('/' ∉ (generate_filenames
        { init_image_info with original_name := "nginx", arch := "arm/v7" }
        "20240101_000000").tar_name.data) := by
  constructor
  · decide
  · decide

/-- Witness for `generate_filenames_spec`: the concrete run for the image
`nginx` shares one base between tar and zip names. -/
theorem generate_filenames_spec_witness :
    ∃ base,
      (generate_filenames { init_image_info with original_name := "nginx" }
          "20240101_000000").tar_name = base ++ ".tar" ∧
      (generate_filenames { init_image_info with original_name := "nginx" }
          "20240101_000000").zip_name = base ++ ".zip" :=
  (generate_filenames_spec { init_image_info with original_name := "nginx" }
      "20240101_000000").2.2.1

/-- Claim C6.  For a run whose file names come from `generate_filenames`,
`clean_temp_files` removes the tar file and the zip file exactly when each
exists, is a no-op for each that does not exist, removes no other path,
leaves every other path untouched, and running it twice leaves the same
filesystem as running it once (the second run removes nothing). -/
theorem clean_temp_files_spec (info0 : ImageInfo) (timestamp : String)
    (fs : String → Bool) (p : String) :
    ((generate_filenames info0 timestamp).tar_name ∈
        (clean_temp_files (generate_filenames info0 timestamp) fs).2 ↔
      fs (generate_filenames info0 timestamp).tar_name = true) ∧
    ((generate_filenames info0 timestamp).zip_name ∈
        (clean_temp_files (generate_filenames info0 timestamp) fs).2 ↔
      fs (generate_filenames info0 timestamp).zip_name = true) ∧
    (∀ q ∈ (clean_temp_files (generate_filenames info0 timestamp) fs).2,
      q = (generate_filenames info0 timestamp).tar_name ∨
        q = (generate_filenames info0 timestamp).zip_name) ∧
    (p ≠ (generate_filenames info0 timestamp).tar_name →
      p ≠ (generate_filenames info0 timestamp).zip_name →
      (clean_temp_files (generate_filenames info0 timestamp) fs).1 p = fs p) ∧
    ((clean_temp_files (generate_filenames info0 timestamp)
        (clean_temp_files (generate_filenames info0 timestamp) fs).1).1 p =
      (clean_temp_files (generate_filenames info0 timestamp) fs).1 p) ∧
    (clean_temp_files (generate_filenames info0 timestamp)
        (clean_temp_files (generate_filenames info0 timestamp) fs).1).2 = [] := by
  have hne := generate_filenames_names_ne info0 timestamp
  rw [clean_temp_files_removed _ _ hne, clean_temp_files_removed _ _ hne]
  refine ⟨?_, ?_, ?_, ?_, ?_, ?_⟩
  · by_cases h1 : fs (generate_filenames info0 timestamp).tar_name <;>
      by_cases h2 : fs (generate_filenames info0 timestamp).zip_name <;>
        simp [h1, h2, hne]
  · by_cases h1 : fs (generate_filenames info0 timestamp).tar_name <;>
      by_cases h2 : fs (generate_filenames info0 timestamp).zip_name <;>
        simp [h1, h2, Ne.symm hne]
  · intro q hq
    by_cases h1 : fs (generate_filenames info0 timestamp).tar_name <;>
      by_cases h2 : fs (generate_filenames info0 timestamp).zip_name <;>
        simp [h1, h2] at hq <;> tauto
  · intro hpt hpz
    rw [clean_temp_files_state]
    simp [hpt, hpz]
  · rw [clean_temp_files_state, clean_temp_files_state]
    by_cases h : p = (generate_filenames info0 timestamp).tar_name ∨
        p = (generate_filenames info0 timestamp).zip_name <;> simp [h]
  · simp [clean_temp_files_state]

/-- Witness for `clean_temp_files_spec`: with every file present, a path
other than the two temp files is untouched. -/
theorem clean_temp_files_spec_witness :
    (clean_temp_files (generate_filenames init_image_info "t")
        (fun _ => true)).1 "other" = true :=
  ((clean_temp_files_spec init_image_info "t" (fun _ => true)
      "other").2.2.2.1) (by decide) (by decide)

/-- Claim C9.  When the configuration file does not exist, `handle_config`
writes the placeholder template (default staging path and default mirror
list) and the process exits before any further pipeline step; when it
exists, the staging path is loaded (with its default) and the mirror entry
is split on commas, each entry is stripped of surrounding whitespace, and
entries empty after stripping are dropped. -/
theorem handle_config_spec (c : ConfigData) (s m : String) :
    handle_config none = .exit_created config_template ∧
    config_template.remote_path = some "/tmp/docker-images" ∧
    config_template.registry_mirrors =
      some "https://registry.docker-cn.com,https://mirror.baidubce.com" ∧
    run_after_config none = none ∧
    handle_config (some c) =
      .loaded (c.remote_path.getD "/tmp/docker-images")
        (((splitOnChar ',' (c.registry_mirrors.getD "").data).map
            (fun e => (⟨stripChars e⟩ : String))).filter (fun x => x ≠ "")) ∧
    (m ∈ parse_mirrors s →
      m ≠ "" ∧ ∃ e ∈ splitOnChar ',' s.data, m = ⟨stripChars e⟩) := by
  refine ⟨rfl, rfl, rfl, rfl, ?_, ?_⟩
  · simp [handle_config, parse_mirrors_eq]
  · intro hm
    rw [parse_mirrors_eq] at hm
    obtain ⟨hmem, hne⟩ := List.mem_filter.mp hm
    obtain ⟨e, he, rfl⟩ := List.mem_map.mp hmem
    refine ⟨by simpa using hne, e, he, rfl⟩

/-- Witness for `handle_config_spec`: in the mirror entry `a, ,b` the
mirror `a` comes from a comma-separated field, stripped and nonempty. -/
theorem handle_config_spec_witness :
    ("a" : String) ≠ "" ∧
    ∃ e ∈ splitOnChar ',' (" a, ,b" : String).data,
      ("a" : String) = ⟨stripChars e⟩ :=
  (handle_config_spec ⟨none, none⟩ " a, ,b" "a").2.2.2.2.2 (by decide)

/-- Claim C10.  With a colon in the input, the tag stored by
`parse_image_input` is the raw substring after the first colon, with no
character replaced, and `generate_filenames` embeds that tag verbatim
between the sanitized name and the architecture in both file names. -/
theorem tag_kept_verbatim (input timestamp : String) (h : ':' ∈ input.data) :
    (parse_image_input init_image_info input).original_tag.data =
      (splitFirst ':' input.data).2 ∧
    (generate_filenames (parse_image_input init_image_info input)
        timestamp).tar_name =
      (⟨(parse_image_input init_image_info input).original_name.data.map
          fileSafeChar⟩ : String) ++ "_" ++
        (parse_image_input init_image_info input).original_tag ++ "_" ++
        (parse_image_input init_image_info input).arch ++ "_" ++
        timestamp ++ ".tar" ∧
    (generate_filenames (parse_image_input init_image_info input)
        timestamp).zip_name =
      (⟨(parse_image_input init_image_info input).original_name.data.map
          fileSafeChar⟩ : String) ++ "_" ++
        (parse_image_input init_image_info input).original_tag ++ "_" ++
        (parse_image_input init_image_info input).arch ++ "_" ++
        timestamp ++ ".zip" := by
  refine ⟨?_, rfl, rfl⟩
  simp [parse_image_input, h]

/-- Witness for `tag_kept_verbatim`: the input `nginx:v@^1` keeps the tag
`v@^1` unsanitized although `@` and `^` are outside the allowed class. -/
theorem tag_kept_verbatim_witness :
    (parse_image_input init_image_info "nginx:v@^1").original_tag.data =
      (splitFirst ':' ("nginx:v@^1" : String).data).2 ∧
    (parse_image_input init_image_info "nginx:v@^1").original_tag = "v@^1" :=
  ⟨(tag_kept_verbatim "nginx:v@^1" "t" (by decide)).1, by decide⟩
